import Mathlib

/-!
Shallow embedding of the weather ingestion/export program (`src/app`):
the field serializers of `schema.py`, the sample selectors, polling loop and
database repository of `services.py`, and the Excel-export trigger.

Modelling conventions:
* Python floats carry exact decimal values here and are modelled as `ℚ`;
  the one arithmetic operation performed on them (`pressure // 1.333`) is
  modelled as exact floor division.
* A parsed `datetime` is reduced to the `(hour, minute)` pair, which is all
  the selectors in `DownloadCreateWeatherRecordService` ever read.
* Fallible steps return `Option`/`Except`.  The `while True` polling loop,
  which has no exception handler in its body, is modelled over a finite
  schedule of per-iteration fetch outcomes; an uncaught error ends the run.
-/

namespace WeatherApp

/-- Wall-clock instant as consumed by the selectors: `services.py` only reads
`.hour` (line 142) and `.minute` (line 150) of `datetime.now()` and of the
parsed series timestamps. -/
structure PyTime where
  hour : Nat
  minute : Nat
deriving DecidableEq, Repr

/-- Modelled from the spec: `WEATHER_CODE_MAP` is imported from `constants.py`,
which is not among the provided sources; the spec describes it as "a fixed
code→label lookup".  We model it as a fixed finite association list (the
concrete entries are illustrative; code 0 is the clear-sky code used by the
spec's end-to-end scenario). -/
def WEATHER_CODE_MAP : List (Nat × String) :=
  [(0, "Ясно"), (1, "Преимущественно ясно"), (2, "Переменная облачность"), (3, "Пасмурно")]

/-- Python `dict.get(key)` on an association list: the value at the first
matching key, and `none` (Python `None`) when the key is absent. -/
def dict_get (m : List (Nat × String)) (k : Nat) : Option String :=
  (m.find? fun p => p.1 == k).map Prod.snd

/-- `WeatherMinutelySchemaIn.serialize_weather_code` (schema.py lines 21-23):
`[WEATHER_CODE_MAP.get(i) for i in codes]`.  Unknown codes yield `none`
(Python `None`, the default of `dict.get`) at their position. -/
def serialize_weather_code (codes : List Nat) : List (Option String) :=
  codes.map (dict_get WEATHER_CODE_MAP)

/-- Body of the loop in `WeatherMinutelySchemaIn.serialize_wind_direction`
(schema.py lines 25-38): the if/elif chain appends one cardinal label, and a
bearing outside [0, 360] falls through every branch and appends nothing
(modelled as `none`). -/
def wind_direction_label (direction : ℚ) : Option String :=
  if (315 < direction ∧ direction ≤ 360) ∨ (0 ≤ direction ∧ direction ≤ 45) then some "Север"
  else if 45 < direction ∧ direction ≤ 135 then some "Восток"
  else if 135 < direction ∧ direction ≤ 225 then some "Юг"
  else if 225 < direction ∧ direction ≤ 315 then some "Запад"
  else none

/-- `WeatherMinutelySchemaIn.serialize_wind_direction` (schema.py lines 25-38):
the result list collects the label appended for each bearing, skipping
bearings for which no branch fires. -/
def serialize_wind_direction (directions : List ℚ) : List String :=
  directions.filterMap wind_direction_label

/-- Python `pressure // 1.333` (schema.py line 56) on exact values: the floor
of `p / 1.333`, computed on numerator and denominator so that the kernel can
evaluate it (`Int` division is Euclidean, i.e. floor division for the
positive denominator used here). -/
def py_floordiv_1333 (p : ℚ) : ℚ :=
  (((p.num * 1000) / ((p.den : ℤ) * 1333) : ℤ) : ℚ)

/-- `WeatherHourlySchemaIn.serialize_surface_pressure` (schema.py lines 51-57):
converts every pressure from hPa to mmHg by floor division by 1.333. -/
def serialize_surface_pressure (pressures : List ℚ) : List ℚ :=
  pressures.map py_floordiv_1333

/-- Raw `response["hourly"]` payload after timestamp parsing: the two parallel
lists validated by `WeatherHourlySchemaIn` (schema.py lines 41-57). -/
structure RawHourly where
  time : List PyTime
  surface_pressure : List ℚ
deriving DecidableEq, Repr

/-- Raw `response["minutely_15"]` payload after timestamp parsing: the six
parallel lists validated by `WeatherMinutelySchemaIn` (schema.py lines 7-38). -/
structure RawMinutely where
  time : List PyTime
  temperature_2m : List ℚ
  precipitation : List ℚ
  wind_speed_10m : List ℚ
  wind_direction_10m : List ℚ
  weather_code : List Nat
deriving DecidableEq, Repr

/-- `WeatherHourlySchemaIn(...).model_dump(by_alias=True)`: keys `time` and
`pressure`, with the pressure serializer applied. -/
structure HourlyData where
  time : List PyTime
  pressure : List ℚ
deriving DecidableEq, Repr

/-- `WeatherMinutelySchemaIn(...).model_dump(by_alias=True)`: aliased keys with
the three field serializers applied.  Note `wind_direction` may be shorter
than the other lists (out-of-range bearings are dropped) and `weather` holds
`none` for unknown codes. -/
structure MinutelyData where
  time : List PyTime
  temperature : List ℚ
  precipitation : List ℚ
  wind_speed : List ℚ
  wind_direction : List String
  weather : List (Option String)
deriving DecidableEq, Repr

/-- The hourly validation service (`ValidationService(WeatherHourlySchemaIn)`,
services.py line 199): pydantic validation plus serialization. -/
def validate_hourly (r : RawHourly) : HourlyData :=
  { time := r.time, pressure := serialize_surface_pressure r.surface_pressure }

/-- The minutely validation service (`ValidationService(WeatherMinutelySchemaIn)`,
services.py line 200): pydantic validation plus serialization. -/
def validate_minutely (r : RawMinutely) : MinutelyData :=
  { time := r.time
    temperature := r.temperature_2m
    precipitation := r.precipitation
    wind_speed := r.wind_speed_10m
    wind_direction := serialize_wind_direction r.wind_direction_10m
    weather := serialize_weather_code r.weather_code }

/-- The loop of `_get_current_hour_data` (services.py lines 141-143) over the
zipped `(time, pressure)` pairs: return the pressure of the first pair whose
hour equals the current hour; fall off the end (Python `return None`)
otherwise. -/
def hour_scan (nowHour : Nat) : List (PyTime × ℚ) → Option ℚ
  | [] => none
  | (t, p) :: rest => if t.hour = nowHour then some p else hour_scan nowHour rest

/-- `DownloadCreateWeatherRecordService._get_current_hour_data`
(services.py lines 139-143).  `zip` truncates to the shorter list, as in
Python. -/
def get_current_hour_data (times : List PyTime) (pressures : List ℚ) (nowHour : Nat) : Option ℚ :=
  hour_scan nowHour (times.zip pressures)

/-- `abs(time.minute - datetime.now().minute)` (services.py line 150). -/
def delta_minutes (t : PyTime) (nowMinute : Nat) : Nat :=
  ((t.minute : ℤ) - (nowMinute : ℤ)).natAbs

/-- The comparison `delta_minutes < index_min_tuple[1]` where the second
component starts as `float("inf")` (services.py lines 148-151): `none` plays
the role of infinity and every finite delta is below it. -/
def lt_inf (d : Nat) : Option Nat → Bool
  | none => true
  | some b => d < b

/-- The `for index, time in enumerate(...)` loop of `_get_current_minute_data`
(services.py lines 148-152), carrying the running `(index, best_delta)`
accumulator `index_min_tuple`. -/
def index_min_scan (nowMinute : Nat) :
    List PyTime → Nat → Nat × Option Nat → Nat × Option Nat
  | [], _, best => best
  | t :: rest, idx, best =>
      index_min_scan nowMinute rest (idx + 1)
        (if lt_inf (delta_minutes t nowMinute) best.2 then (idx, some (delta_minutes t nowMinute)) else best)

/-- `current_time_index` (services.py line 154): the first component of the
final accumulator, starting from `(0, float("inf"))`. -/
def get_current_minute_index (times : List PyTime) (nowMinute : Nat) : Nat :=
  (index_min_scan nowMinute times 0 (0, none)).1

/-- One row of the dictionary built by `_get_current_minute_data`
(services.py lines 157-159): every key of the validated minutely data indexed
at `current_time_index`. -/
structure MinutelySample where
  time : PyTime
  temperature : ℚ
  precipitation : ℚ
  wind_speed : ℚ
  wind_direction : String
  weather : Option String
deriving DecidableEq, Repr

/-- The dictionary construction `result[key] = value[current_time_index]`
(services.py lines 157-159): `none` models the `IndexError` Python raises when
`current_time_index` is out of range for one of the lists. -/
def sample_at_index (md : MinutelyData) (idx : Nat) : Option MinutelySample :=
  match md.time.get? idx, md.temperature.get? idx, md.precipitation.get? idx,
      md.wind_speed.get? idx, md.wind_direction.get? idx, md.weather.get? idx with
  | some t, some temp, some prec, some ws, some wd, some w =>
      some ⟨t, temp, prec, ws, wd, w⟩
  | _, _, _, _, _, _ => none

/-- `DownloadCreateWeatherRecordService._get_current_minute_data`
(services.py lines 145-161). -/
def get_current_minute_data (md : MinutelyData) (now : PyTime) : Option MinutelySample :=
  sample_at_index md (get_current_minute_index md.time now.minute)

/-- The kinds of exception that one polling iteration can raise
(services.py lines 123-137); none of them is caught inside the loop. -/
inductive PollError
  | fetchError
  | validationError
  | mergeTypeError
  | indexError
deriving DecidableEq, Repr

/-- The dict union `create_data = minutely_data | hourly_data`
(services.py line 134), before validation: the minutely sample with the
hourly `pressure` value adjoined. -/
structure MergedData where
  time : PyTime
  temperature : ℚ
  precipitation : ℚ
  wind_speed : ℚ
  wind_direction : String
  weather : Option String
  pressure : ℚ
deriving DecidableEq, Repr

/-- `minutely_data | hourly_data` (services.py line 134) when both operands
are dictionaries. -/
def merge_records (ms : MinutelySample) (pressure : ℚ) : MergedData :=
  ⟨ms.time, ms.temperature, ms.precipitation, ms.wind_speed, ms.wind_direction, ms.weather, pressure⟩

/-- `WeatherRecordCreateSchema` output (schema.py lines 60-69): the six fields
persisted for a weather record. -/
structure CreateData where
  temperature : ℚ
  wind_speed : ℚ
  wind_direction : String
  precipitation : ℚ
  pressure : ℚ
  weather : String
deriving DecidableEq, Repr

/-- `ValidationService(WeatherRecordCreateSchema)` applied to the merged dict
(services.py lines 81, 201): the extra `time` key is ignored by pydantic, and
a `None` weather label (unknown weather code) fails the strict `weather: str`
field. -/
def validate_create (m : MergedData) : Except PollError CreateData :=
  match m.weather with
  | none => .error .validationError
  | some w => .ok ⟨m.temperature, m.wind_speed, m.wind_direction, m.precipitation, m.pressure, w⟩

/-- One iteration of the `while True` body of
`DownloadCreateWeatherRecordService.__call__` (services.py lines 124-136),
with the fetch outcome supplied as input.  The steps run in source order:
fetch, hourly validation, hourly selection (line 128, may produce `None`),
minutely validation, minutely selection (line 132, may raise `IndexError`),
dict union (line 134, raises `TypeError` when the hourly side is `None`),
create-schema validation.  No step is wrapped in a `try`/`except`. -/
def poll_iteration (fetch : Except PollError (RawHourly × RawMinutely)) (now : PyTime) :
    Except PollError CreateData :=
  match fetch with
  | .error e => .error e
  | .ok (rh, rm) =>
      let hd := validate_hourly rh
      let hourly_data := get_current_hour_data hd.time hd.pressure now.hour
      let md := validate_minutely rm
      match get_current_minute_data md now with
      | none => .error .indexError
      | some ms =>
          match hourly_data with
          | none => .error .mergeTypeError
          | some p => validate_create (merge_records ms p)

/-- The `while True` loop of `DownloadCreateWeatherRecordService.__call__`
(services.py lines 124-137) over a finite schedule of fetch outcomes.
Because the body has no exception handler, the first failing iteration
aborts the loop: its error propagates to the task driver in `main.py`
(whose `except Exception: pass` merely suppresses it after the task group
has been torn down), and no later iteration runs.  Returns the list of
records handed to the create service and the terminal error, if any. -/
def poll_loop (fetches : List (Except PollError (RawHourly × RawMinutely))) (now : PyTime) :
    List CreateData × Option PollError :=
  match fetches with
  | [] => ([], none)
  | f :: rest =>
      match poll_iteration f now with
      | .error e => ([], some e)
      | .ok d =>
          let r := poll_loop rest now
          (d :: r.1, r.2)

/-- A persisted `WeatherRecord` row (models.py lines 14-26): integer identity
assigned by the database, the six payload fields, and a `created_at`
timestamp assigned by the database at insertion time (`server_default`). -/
structure WeatherRecordRow where
  id : Nat
  temperature : ℚ
  wind_speed : ℚ
  wind_direction : String
  precipitation : ℚ
  pressure : ℚ
  weather : String
  created_at : Option Nat
deriving DecidableEq, Repr

/-- The next auto-increment identity: one more than the largest identity in
the table (fresh tables start at 1). -/
def next_id (store : List WeatherRecordRow) : Nat :=
  (store.map (fun r => r.id)).foldr max 0 + 1

/-- The row inserted by `DatabaseRepository.create`: the payload fields of the
validated create data, an identity assigned by the database, and a
`created_at` timestamp assigned by the database clock at write time (never
`NULL`). -/
def created_row (store : List WeatherRecordRow) (data : CreateData) (now : Nat) :
    WeatherRecordRow :=
  ⟨next_id store, data.temperature, data.wind_speed, data.wind_direction,
   data.precipitation, data.pressure, data.weather, some now⟩

/-- `DatabaseRepository.create` (services.py lines 53-57): append one row. -/
def create (store : List WeatherRecordRow) (data : CreateData) (now : Nat) : List WeatherRecordRow :=
  store ++ [created_row store data now]

/-- `DatabaseRepository.get_all` (services.py lines 59-68):
`select(...).order_by(text(order_by if order_by else "id")).limit(limit)`.
The program only ever passes the order expressions `"id desc"` (export path)
and `None` (meaning `"id"`); those two are modelled — `"id desc"` sorts by
descending identity, anything else by ascending identity.  A `None` limit
means no limit.  Row order for equal identities is irrelevant in the program
because identities are unique; the model uses a stable sort. -/
def get_all (store : List WeatherRecordRow) (order_by : Option String) (limit : Option Nat) :
    List WeatherRecordRow :=
  let ordered :=
    if order_by.getD "id" = "id desc" then
      List.insertionSort (fun a b => b.id ≤ a.id) store
    else
      List.insertionSort (fun a b => a.id ≤ b.id) store
  match limit with
  | none => ordered
  | some n => ordered.take n

/-- Leading-whitespace removal on a character list; composed twice with
`reverse` below it models Python `str.strip()`. -/
def drop_leading_ws : List Char → List Char
  | [] => []
  | c :: cs => if c.isWhitespace then drop_leading_ws cs else c :: cs

/-- Python `input_data.strip()` (services.py line 173). -/
def py_strip (s : String) : String :=
  String.mk ((drop_leading_ws (drop_leading_ws s.data).reverse).reverse)

/-- Python `str.lower()` (services.py line 173), restricted to the characters
that can occur in case variants of the accepted tokens: ASCII letters and the
Cyrillic capitals of "да"/"д". -/
def py_lower_char (c : Char) : Char :=
  if c = 'Д' then 'д' else if c = 'А' then 'а' else c.toLower

/-- Python `str.lower()` applied character by character. -/
def py_lower (s : String) : String :=
  String.mk (s.data.map py_lower_char)

/-- The fixed affirmative tokens of the export prompt (services.py line 173). -/
def affirmative_tokens : List String :=
  ["да", "yes", "y", "д"]

/-- The guard `input_data.strip().lower() not in [...]` (services.py
line 173), as the positive test: `true` iff the export proceeds. -/
def is_affirmative (input : String) : Bool :=
  affirmative_tokens.contains (py_lower (py_strip input))

/-- The read issued by one iteration of `ExportWeatherRecordsToExcel.__call__`
(services.py lines 172-178): on an affirmative operator reply the service
requests records with the hard-coded arguments `order_by="id desc"`,
`limit=10`; any other reply issues no request (`continue`). -/
def export_request (input : String) : Option (String × Nat) :=
  if is_affirmative input then some ("id desc", 10) else none

/-- The rows handed to the spreadsheet writer for one operator reply
(services.py lines 176-179); the per-row output validation of
`GetAllRecordService` preserves the row count. -/
def export_rows (input : String) (store : List WeatherRecordRow) : List WeatherRecordRow :=
  match export_request input with
  | none => []
  | some (ob, lim) => get_all store (some ob) (some lim)

deriving instance DecidableEq for Except

/-! ## Theorems -/

/-- The floor division modelled in `py_floordiv_1333` is exactly
`⌊p / 1.333⌋`. -/
theorem py_floordiv_1333_eq_floor (p : ℚ) :
    py_floordiv_1333 p = ((⌊p / (1333/1000 : ℚ)⌋ : ℤ) : ℚ) := by
  have hden : ((p.den : ℚ)) ≠ 0 := by
    exact_mod_cast p.den_nz
  have hnum : ((p.num : ℚ)) = p * (p.den : ℚ) :=
    (div_eq_iff hden).mp (Rat.num_div_den p)
  have key : p / (1333/1000 : ℚ)
      = ((p.num * 1000 : ℤ) : ℚ) / (((p.den * 1333 : ℕ) : ℚ)) := by
    rw [div_eq_div_iff (by norm_num) (by push_cast; exact mul_ne_zero hden (by norm_num))]
    push_cast
    rw [hnum]
    ring
  rw [py_floordiv_1333, key, Rat.floor_intCast_div_natCast]
  push_cast
  ring_nf

/-- Claim C6 counterexample: the conversion applied to 1333 hPa yields
1000 mmHg, not the 999 the claim states (1.333 · 1000 = 1333, so the
quotient is exactly 1000 and flooring does not drop it to 999). -/
theorem c6_counterexample :
    py_floordiv_1333 1333 = 1000 ∧ ¬ py_floordiv_1333 1333 = 999 := by
  decide

/-- Claim C6 (amended): the hPa→mmHg conversion is the pure truncating
function `convert(x) = ⌊x / 1.333⌋`; at x = 1333 the quotient is exactly
1000 so `convert(1333) = 1000`, and the truncating (non-rounding) nature
shows at x = 1334, where the conversion yields 1000 although rounding the
quotient 1000.75… would yield 1001. -/
theorem c6_amended_pressure_truncation :
    (∀ x : ℚ, py_floordiv_1333 x = ((⌊x / (1333/1000 : ℚ)⌋ : ℤ) : ℚ)) ∧
    py_floordiv_1333 1333 = 1000 ∧
    py_floordiv_1333 1334 = 1000 ∧
    round ((1334 : ℚ) / (1333/1000 : ℚ)) = (1001 : ℤ) ∧
    serialize_surface_pressure [1013] = [759] :=
  ⟨py_floordiv_1333_eq_floor, by decide, by decide, by
    rw [round_eq]
    norm_num, by decide⟩

/-- A key absent from an association list looks up to `none`. -/
theorem dict_get_eq_none (m : List (Nat × String)) (k : Nat)
    (h : ∀ p ∈ m, p.1 ≠ k) : dict_get m k = none := by
  unfold dict_get
  rw [List.find?_eq_none.mpr]
  · rfl
  · intro x hx
    simpa using h x hx

/-- Claim C7: every integer weather code is mapped through the fixed
code→label lookup positionally (the output list has the same length, nothing
is dropped), and a code absent from the lookup maps to the explicit sentinel
`none` (Python `None`, the `dict.get` default) rather than being omitted. -/
theorem c7_weather_code_lookup_total (codes : List Nat) :
    (serialize_weather_code codes).length = codes.length ∧
    (∀ (i c : Nat), codes[i]? = some c →
      (serialize_weather_code codes)[i]? = some (dict_get WEATHER_CODE_MAP c)) ∧
    (∀ (i c : Nat), codes[i]? = some c → (∀ p ∈ WEATHER_CODE_MAP, p.1 ≠ c) →
      (serialize_weather_code codes)[i]? = some none) := by
  refine ⟨List.length_map _ _, ?_, ?_⟩
  · intro i c hc
    simp [serialize_weather_code, List.getElem?_map, hc]
  · intro i c hc habsent
    simp [serialize_weather_code, List.getElem?_map, hc, dict_get_eq_none _ _ habsent]

/-- Witness for C7: code 0 is in the lookup and is mapped to its label; code
99 is not in the lookup and is mapped to the `none` sentinel, still occupying
its position in the output. -/
theorem c7_witness :
    (serialize_weather_code [0, 99])[1]? = some none ∧
    (serialize_weather_code [0, 99])[0]? = some (dict_get WEATHER_CODE_MAP 0) :=
  ⟨(c7_weather_code_lookup_total [0, 99]).2.2 1 99 (by decide) (by decide),
   (c7_weather_code_lookup_total [0, 99]).2.1 0 0 (by decide)⟩

/-- Claim C10: on every affirmative operator reply the export reads with the
hard-coded arguments `order_by = "id desc"`, `limit = 10` — independent of
the reply text — and therefore never hands more than 10 rows to the
spreadsheet writer. -/
theorem c10_export_fixed_limit (input : String) (store : List WeatherRecordRow)
    (h : is_affirmative input = true) :
    export_request input = some ("id desc", 10) ∧
    (export_rows input store).length ≤ 10 := by
  have hreq : export_request input = some ("id desc", 10) := by
    simp [export_request, h]
  refine ⟨hreq, ?_⟩
  have hrows : export_rows input store
      = (List.insertionSort (fun a b => b.id ≤ a.id) store).take 10 := by
    simp [export_rows, hreq, get_all]
  rw [hrows, List.length_take]
  exact min_le_left _ _

/-- Witness for C10: the reply `"Y\n"` (as read from stdin, newline included)
is affirmative, and the export over a two-row store requests
`("id desc", 10)` and yields at most 10 rows. -/
theorem c10_witness :
    is_affirmative "Y\n" = true ∧
    export_request "Y\n" = some ("id desc", 10) ∧
    (export_rows "Y\n"
      [⟨1, 5, 3, "Север", 0, 759, "Ясно", some 100⟩,
       ⟨2, 6, 3, "Юг", 0, 760, "Пасмурно", some 200⟩]).length ≤ 10 :=
  ⟨by decide,
   c10_export_fixed_limit "Y\n"
     [⟨1, 5, 3, "Север", 0, 759, "Ясно", some 100⟩,
      ⟨2, 6, 3, "Юг", 0, 760, "Пасмурно", some 200⟩] (by decide)⟩

/-- Claim C5: on the full range 0 ≤ b ≤ 360 the serializer produces exactly
one of the four cardinal labels (Север/Восток/Юг/Запад = North/East/South/West),
following the half-open intervals (315, 360] ∪ [0, 45] → North,
(45, 135] → East, (135, 225] → South, (225, 315] → West; in particular both
0 and 360 land in the North bucket and no bearing in range is left
unlabelled or doubly labelled. -/
theorem c5_wind_direction_partition (b : ℚ) (h0 : 0 ≤ b) (h1 : b ≤ 360) :
    (∃ lab, wind_direction_label b = some lab ∧
      lab ∈ (["Север", "Восток", "Юг", "Запад"] : List String)) ∧
    (wind_direction_label b = some "Север" ↔ (315 < b ∧ b ≤ 360) ∨ (0 ≤ b ∧ b ≤ 45)) ∧
    (wind_direction_label b = some "Восток" ↔ 45 < b ∧ b ≤ 135) ∧
    (wind_direction_label b = some "Юг" ↔ 135 < b ∧ b ≤ 225) ∧
    (wind_direction_label b = some "Запад" ↔ 225 < b ∧ b ≤ 315) := by
  unfold wind_direction_label
  split_ifs with hN hE hS hW
  · refine ⟨⟨"Север", rfl, by decide⟩, iff_of_true rfl hN, ?_, ?_, ?_⟩ <;>
      · refine iff_of_false (by decide) ?_
        rintro ⟨h2, h3⟩
        rcases hN with ⟨h4, h5⟩ | ⟨h4, h5⟩ <;> linarith
  · refine ⟨⟨"Восток", rfl, by decide⟩, iff_of_false (by decide) hN,
      iff_of_true rfl hE, ?_, ?_⟩ <;>
      · refine iff_of_false (by decide) ?_
        rintro ⟨h2, h3⟩
        rcases hE with ⟨h4, h5⟩
        linarith
  · refine ⟨⟨"Юг", rfl, by decide⟩, iff_of_false (by decide) hN,
      iff_of_false (by decide) hE, iff_of_true rfl hS, ?_⟩
    refine iff_of_false (by decide) ?_
    rintro ⟨h2, h3⟩
    rcases hS with ⟨h4, h5⟩
    linarith
  · exact ⟨⟨"Запад", rfl, by decide⟩, iff_of_false (by decide) hN,
      iff_of_false (by decide) hE, iff_of_false (by decide) hS, iff_of_true rfl hW⟩
  · exfalso
    push_neg at hN hE hS hW
    have hb45 : 45 < b := hN.2 h0
    have hb135 : 135 < b := hE hb45
    have hb225 : 225 < b := hS hb135
    have hb315 : 315 < b := hW hb225
    have := hN.1 hb315
    linarith

/-- Witness for C5: bearing 360 is in range and is labelled (it gets the
North label, like bearing 0). -/
theorem c5_witness :
    (0 : ℚ) ≤ 360 ∧ (360 : ℚ) ≤ 360 ∧
    (∃ lab, wind_direction_label 360 = some lab ∧
      lab ∈ (["Север", "Восток", "Юг", "Запад"] : List String)) ∧
    wind_direction_label 360 = some "Север" ∧ wind_direction_label 0 = some "Север" :=
  ⟨by decide, by decide,
   (c5_wind_direction_partition 360 (by decide) (by decide)).1,
   by decide, by decide⟩

/-- The zipped scan of `_get_current_hour_data` returns the second component
of the first pair whose hour matches. -/
theorem hour_scan_first (nowHour : Nat) (l : List (PyTime × ℚ)) :
    ∀ (i : Nat) (hi : i < l.length),
      (l.get ⟨i, hi⟩).1.hour = nowHour →
      (∀ j (hj : j < i), (l.get ⟨j, Nat.lt_trans hj hi⟩).1.hour ≠ nowHour) →
      hour_scan nowHour l = some (l.get ⟨i, hi⟩).2 := by
  induction l with
  | nil =>
      intro i hi _ _
      exact absurd hi (Nat.not_lt_zero i)
  | cons hd rest ih =>
      intro i hi hmatch hfirst
      obtain ⟨t, p⟩ := hd
      cases i with
      | zero =>
          have ht : t.hour = nowHour := by simpa using hmatch
          simp [hour_scan, ht]
      | succ j =>
          have hne : t.hour ≠ nowHour := by simpa using hfirst 0 (Nat.succ_pos j)
          have hi2 : j < rest.length := Nat.lt_of_succ_lt_succ hi
          have hm2 : (rest.get ⟨j, hi2⟩).1.hour = nowHour := by simpa using hmatch
          have hf2 : ∀ k (hk : k < j),
              (rest.get ⟨k, Nat.lt_trans hk hi2⟩).1.hour ≠ nowHour := by
            intro k hk
            simpa using hfirst (k + 1) (Nat.succ_lt_succ hk)
          simpa [hour_scan, hne] using ih j hi2 hm2 hf2

/-- Claim C3: when some timestamp of the hourly series has the current
hour-of-day, the hourly selection returns the pressure paired with the first
such timestamp in series order. -/
theorem c3_hourly_selection_first_match (times : List PyTime) (pressures : List ℚ)
    (nowHour : Nat) (i : Nat) (hi : i < (times.zip pressures).length)
    (hmatch : ((times.zip pressures).get ⟨i, hi⟩).1.hour = nowHour)
    (hfirst : ∀ j (hj : j < i),
      ((times.zip pressures).get ⟨j, Nat.lt_trans hj hi⟩).1.hour ≠ nowHour) :
    get_current_hour_data times pressures nowHour
      = some ((times.zip pressures).get ⟨i, hi⟩).2 :=
  hour_scan_first nowHour (times.zip pressures) i hi hmatch hfirst

/-- Witness for C3: at 8 o'clock, over timestamps 07:00, 08:00, 08:30, the
match at index 1 is selected and its pressure 2 returned (index 0 does not
match). -/
theorem c3_witness :
    get_current_hour_data [⟨7, 0⟩, ⟨8, 0⟩, ⟨8, 30⟩] [1, 2, 3] 8 = some 2 := by
  have h := c3_hourly_selection_first_match [⟨7, 0⟩, ⟨8, 0⟩, ⟨8, 30⟩] [1, 2, 3] 8 1
    (by decide) (by decide)
    (by
      intro j hj
      have hj0 : j = 0 := by omega
      subst hj0
      exact (by decide :
        ((([⟨7, 0⟩, ⟨8, 0⟩, ⟨8, 30⟩] : List PyTime).zip ([1, 2, 3] : List ℚ)).get
          ⟨0, Nat.succ_pos _⟩).1.hour ≠ 8))
  simpa using h

/-- Invariant of the `index_min_scan` loop once the accumulator carries a
finite best delta: the scan returns a finite best delta that is a lower bound
of the old best and of every remaining delta, and either the accumulator
survived untouched or the result points at the first strict improvement. -/
theorem index_min_scan_spec (m : Nat) (l : List PyTime) :
    ∀ (k bi bd : Nat),
      ∃ fi fd,
        index_min_scan m l k (bi, some bd) = (fi, some fd) ∧
        fd ≤ bd ∧
        (∀ j u, l.get? j = some u → fd ≤ delta_minutes u m) ∧
        ((fi = bi ∧ fd = bd) ∨
          ∃ j u, j < l.length ∧ l.get? j = some u ∧ fi = k + j ∧
            fd = delta_minutes u m ∧ fd < bd ∧
            (∀ j2 v, j2 < j → l.get? j2 = some v → fd < delta_minutes v m)) := by
  induction l with
  | nil =>
      intro k bi bd
      refine ⟨bi, bd, rfl, le_refl _, ?_, Or.inl ⟨rfl, rfl⟩⟩
      intro j u hu
      simp at hu
  | cons t rest ih =>
      intro k bi bd
      by_cases h : delta_minutes t m < bd
      · have hstep : index_min_scan m (t :: rest) k (bi, some bd)
            = index_min_scan m rest (k + 1) (k, some (delta_minutes t m)) := by
          simp [index_min_scan, lt_inf, h]
        obtain ⟨fi, fd, heq, hle, hmin, hdisj⟩ := ih (k + 1) k (delta_minutes t m)
        refine ⟨fi, fd, hstep.trans heq, le_trans hle (le_of_lt h), ?_, ?_⟩
        · intro j u hu
          cases j with
          | zero =>
              have h0 : t = u := by simpa using hu
              subst h0
              exact hle
          | succ j2 => exact hmin j2 u (by simpa using hu)
        · right
          rcases hdisj with ⟨hfi, hfd⟩ | ⟨j, u, hjlen, hu, hfi, hfd, hlt, hearly⟩
          · refine ⟨0, t, Nat.succ_pos _, rfl, by omega, hfd, by omega, ?_⟩
            intro j2 v hj2 _
            exact absurd hj2 (Nat.not_lt_zero j2)
          · refine ⟨j + 1, u, Nat.succ_lt_succ hjlen, by simpa using hu, by omega, hfd,
              lt_trans hlt h, ?_⟩
            intro j2 v hj2 hv
            cases j2 with
            | zero =>
                have h0 : t = v := by simpa using hv
                subst h0
                exact hlt
            | succ j3 => exact hearly j3 v (Nat.lt_of_succ_lt_succ hj2) (by simpa using hv)
      · have hbd_le : bd ≤ delta_minutes t m := Nat.le_of_not_lt h
        have hstep : index_min_scan m (t :: rest) k (bi, some bd)
            = index_min_scan m rest (k + 1) (bi, some bd) := by
          simp [index_min_scan, lt_inf, h]
        obtain ⟨fi, fd, heq, hle, hmin, hdisj⟩ := ih (k + 1) bi bd
        refine ⟨fi, fd, hstep.trans heq, hle, ?_, ?_⟩
        · intro j u hu
          cases j with
          | zero =>
              have h0 : t = u := by simpa using hu
              subst h0
              exact le_trans hle hbd_le
          | succ j2 => exact hmin j2 u (by simpa using hu)
        · rcases hdisj with hl | ⟨j, u, hjlen, hu, hfi, hfd, hlt, hearly⟩
          · exact Or.inl hl
          · refine Or.inr ⟨j + 1, u, Nat.succ_lt_succ hjlen, by simpa using hu, by omega, hfd,
              hlt, ?_⟩
            intro j2 v hj2 hv
            cases j2 with
            | zero =>
                have h0 : t = v := by simpa using hv
                subst h0
                exact lt_of_lt_of_le hlt hbd_le
            | succ j3 => exact hearly j3 v (Nat.lt_of_succ_lt_succ hj2) (by simpa using hv)

/-- `current_time_index` on a non-empty series is in range, attains the
minimal minute distance, and strictly beats every earlier index (first-seen
wins on ties). -/
theorem get_current_minute_index_spec (times : List PyTime) (m : Nat) (hne : times ≠ []) :
    get_current_minute_index times m < times.length ∧
    ∃ u, times.get? (get_current_minute_index times m) = some u ∧
      (∀ j v, times.get? j = some v → delta_minutes u m ≤ delta_minutes v m) ∧
      (∀ j v, j < get_current_minute_index times m → times.get? j = some v →
        delta_minutes u m < delta_minutes v m) := by
  obtain ⟨t, rest, rfl⟩ := List.exists_cons_of_ne_nil hne
  have hstep : get_current_minute_index (t :: rest) m
      = (index_min_scan m rest 1 (0, some (delta_minutes t m))).1 := by
    simp [get_current_minute_index, index_min_scan, lt_inf]
  obtain ⟨fi, fd, heq, hle, hmin, hdisj⟩ := index_min_scan_spec m rest 1 0 (delta_minutes t m)
  have hidx : get_current_minute_index (t :: rest) m = fi := by
    rw [hstep, heq]
  rcases hdisj with ⟨hfi, hfd⟩ | ⟨j, u, hjlen, hu, hfi, hfd, hlt, hearly⟩
  · subst hfd
    refine ⟨by rw [hidx, hfi]; exact Nat.succ_pos _, t, ?_, ?_, ?_⟩
    · rw [hidx, hfi]
      rfl
    · intro j v hv
      cases j with
      | zero =>
          have h0 : t = v := by simpa using hv
          subst h0
          exact le_refl _
      | succ j2 => exact hmin j2 v (by simpa using hv)
    · intro j v hj _
      rw [hidx, hfi] at hj
      exact absurd hj (Nat.not_lt_zero j)
  · subst hfd
    have hfi2 : fi = j + 1 := by omega
    refine ⟨by rw [hidx, hfi2]; exact Nat.succ_lt_succ hjlen, u, ?_, ?_, ?_⟩
    · rw [hidx, hfi2]
      simpa using hu
    · intro j2 v hv
      cases j2 with
      | zero =>
          have h0 : t = v := by simpa using hv
          subst h0
          exact le_of_lt hlt
      | succ j3 => exact hmin j3 v (by simpa using hv)
    · intro j2 v hj2 hv
      rw [hidx, hfi2] at hj2
      cases j2 with
      | zero =>
          have h0 : t = v := by simpa using hv
          subst h0
          exact hlt
      | succ j3 =>
          exact hearly j3 v (Nat.lt_of_succ_lt_succ hj2) (by simpa using hv)

/-- Claim C4: on a non-empty normalized sub-hourly series (all field lists of
equal length) the sub-hourly selection always returns a sample; it is the
one at `current_time_index`, whose minute distance to the current minute is
minimal over the series, and every earlier sample has strictly larger
distance (ties are kept by the first-seen sample, by the strictly-less
comparison). -/
theorem c4_subhourly_selection_least_argmin (md : MinutelyData) (now : PyTime)
    (hne : md.time ≠ [])
    (hlen2 : md.temperature.length = md.time.length)
    (hlen3 : md.precipitation.length = md.time.length)
    (hlen4 : md.wind_speed.length = md.time.length)
    (hlen5 : md.wind_direction.length = md.time.length)
    (hlen6 : md.weather.length = md.time.length) :
    ∃ s, get_current_minute_data md now = some s ∧
      md.time.get? (get_current_minute_index md.time now.minute) = some s.time ∧
      md.temperature.get? (get_current_minute_index md.time now.minute) = some s.temperature ∧
      md.precipitation.get? (get_current_minute_index md.time now.minute) = some s.precipitation ∧
      md.wind_speed.get? (get_current_minute_index md.time now.minute) = some s.wind_speed ∧
      md.wind_direction.get? (get_current_minute_index md.time now.minute) = some s.wind_direction ∧
      md.weather.get? (get_current_minute_index md.time now.minute) = some s.weather ∧
      (∀ j v, md.time.get? j = some v →
        delta_minutes s.time now.minute ≤ delta_minutes v now.minute) ∧
      (∀ j v, j < get_current_minute_index md.time now.minute → md.time.get? j = some v →
        delta_minutes s.time now.minute < delta_minutes v now.minute) := by
  obtain ⟨hlt, u, hu, hmin, hearly⟩ := get_current_minute_index_spec md.time now.minute hne
  obtain ⟨x2, hx2⟩ : ∃ x, md.temperature.get? (get_current_minute_index md.time now.minute)
      = some x := ⟨_, List.get?_eq_get (by omega)⟩
  obtain ⟨x3, hx3⟩ : ∃ x, md.precipitation.get? (get_current_minute_index md.time now.minute)
      = some x := ⟨_, List.get?_eq_get (by omega)⟩
  obtain ⟨x4, hx4⟩ : ∃ x, md.wind_speed.get? (get_current_minute_index md.time now.minute)
      = some x := ⟨_, List.get?_eq_get (by omega)⟩
  obtain ⟨x5, hx5⟩ : ∃ x, md.wind_direction.get? (get_current_minute_index md.time now.minute)
      = some x := ⟨_, List.get?_eq_get (by omega)⟩
  obtain ⟨x6, hx6⟩ : ∃ x, md.weather.get? (get_current_minute_index md.time now.minute)
      = some x := ⟨_, List.get?_eq_get (by omega)⟩
  refine ⟨⟨u, x2, x3, x4, x5, x6⟩, ?_, hu, hx2, hx3, hx4, hx5, hx6, hmin, hearly⟩
  simp only [get_current_minute_data, sample_at_index, hu, hx2, hx3, hx4, hx5, hx6]

/-- Witness for C4: a two-sample series with minute distances 10 and 10 from
the current minute 20; the tie is broken in favour of the earlier sample. -/
theorem c4_witness :
    (([⟨8, 10⟩, ⟨8, 30⟩] : List PyTime) ≠ []) ∧
    (∃ s, get_current_minute_data
        ⟨[⟨8, 10⟩, ⟨8, 30⟩], [1, 2], [0, 0], [3, 4], ["Север", "Юг"],
         [some "Ясно", some "Ясно"]⟩ ⟨8, 20⟩ = some s ∧
      ([⟨8, 10⟩, ⟨8, 30⟩] : List PyTime).get?
        (get_current_minute_index [⟨8, 10⟩, ⟨8, 30⟩] 20) = some s.time ∧
      ([1, 2] : List ℚ).get? (get_current_minute_index [⟨8, 10⟩, ⟨8, 30⟩] 20)
        = some s.temperature ∧
      ([0, 0] : List ℚ).get? (get_current_minute_index [⟨8, 10⟩, ⟨8, 30⟩] 20)
        = some s.precipitation ∧
      ([3, 4] : List ℚ).get? (get_current_minute_index [⟨8, 10⟩, ⟨8, 30⟩] 20)
        = some s.wind_speed ∧
      (["Север", "Юг"] : List String).get? (get_current_minute_index [⟨8, 10⟩, ⟨8, 30⟩] 20)
        = some s.wind_direction ∧
      ([some "Ясно", some "Ясно"] : List (Option String)).get?
        (get_current_minute_index [⟨8, 10⟩, ⟨8, 30⟩] 20) = some s.weather ∧
      (∀ j v, ([⟨8, 10⟩, ⟨8, 30⟩] : List PyTime).get? j = some v →
        delta_minutes s.time 20 ≤ delta_minutes v 20) ∧
      (∀ j v, j < get_current_minute_index [⟨8, 10⟩, ⟨8, 30⟩] 20 →
        ([⟨8, 10⟩, ⟨8, 30⟩] : List PyTime).get? j = some v →
        delta_minutes s.time 20 < delta_minutes v 20)) :=
  ⟨by decide,
   c4_subhourly_selection_least_argmin
     ⟨[⟨8, 10⟩, ⟨8, 30⟩], [1, 2], [0, 0], [3, 4], ["Север", "Юг"],
      [some "Ясно", some "Ясно"]⟩ ⟨8, 20⟩
     (by decide) (by decide) (by decide) (by decide) (by decide) (by decide)⟩

/-- The zipped hourly scan finds nothing when no pair's hour matches. -/
theorem hour_scan_none (nowHour : Nat) (l : List (PyTime × ℚ))
    (h : ∀ x ∈ l, x.1.hour ≠ nowHour) : hour_scan nowHour l = none := by
  induction l with
  | nil => rfl
  | cons hd rest ih =>
      obtain ⟨t, p⟩ := hd
      have hne : t.hour ≠ nowHour := h (t, p) (List.mem_cons_self _ _)
      simp only [hour_scan, if_neg hne]
      exact ih fun x hx => h x (List.mem_cons_of_mem _ hx)

/-- When no timestamp has the current hour, `_get_current_hour_data` falls off
its loop and returns `None`. -/
theorem get_current_hour_data_none (times : List PyTime) (pressures : List ℚ)
    (nowHour : Nat) (h : ∀ t ∈ times, t.hour ≠ nowHour) :
    get_current_hour_data times pressures nowHour = none :=
  hour_scan_none nowHour _ fun x hx => h x.1 (List.of_mem_zip hx).1

/-- Claim C1 counterexample: a schedule whose first iteration raises a fetch
error and whose second iteration would succeed (as the first conjunct shows).
The loop terminates at the fetch error with nothing persisted — the error is
not caught at the iteration boundary, the succeeding iteration never runs,
and the error reaches the loop's driver. -/
theorem c1_counterexample :
    poll_iteration
      (Except.ok ((⟨[⟨8, 0⟩], [1013]⟩ : RawHourly),
        (⟨[⟨8, 15⟩], [5], [0], [3], [10], [0]⟩ : RawMinutely))) ⟨8, 15⟩
      = Except.ok ⟨5, 3, "Север", 0, 759, "Ясно"⟩ ∧
    poll_loop
      [Except.error PollError.fetchError,
       Except.ok ((⟨[⟨8, 0⟩], [1013]⟩ : RawHourly),
        (⟨[⟨8, 15⟩], [5], [0], [3], [10], [0]⟩ : RawMinutely))] ⟨8, 15⟩
      = ([], some PollError.fetchError) := by
  decide

/-- Claim C1 (amended): an error raised inside one polling iteration is not
caught at the iteration boundary — the body of the `while True` loop has no
exception handler, so the first failing iteration terminates the loop with
that error, nothing is persisted from it onwards, and no further iteration
(sleep/retry) takes place; the error propagates to the task driver. -/
theorem c1_amended_first_error_halts_loop
    (f : Except PollError (RawHourly × RawMinutely))
    (fs : List (Except PollError (RawHourly × RawMinutely)))
    (now : PyTime) (e : PollError)
    (h : poll_iteration f now = Except.error e) :
    poll_loop (f :: fs) now = ([], some e) := by
  simp [poll_loop, h]

/-- Witness for C1 (amended): a fetch error in the first iteration halts a
two-iteration schedule immediately. -/
theorem c1_witness :
    poll_iteration (Except.error PollError.fetchError) ⟨0, 0⟩
      = Except.error PollError.fetchError ∧
    poll_loop
      [Except.error PollError.fetchError,
       Except.ok ((⟨[], []⟩ : RawHourly), (⟨[], [], [], [], [], []⟩ : RawMinutely))] ⟨0, 0⟩
      = ([], some PollError.fetchError) :=
  ⟨by decide,
   c1_amended_first_error_halts_loop (Except.error PollError.fetchError)
     [Except.ok ((⟨[], []⟩ : RawHourly), (⟨[], [], [], [], [], []⟩ : RawMinutely))]
     ⟨0, 0⟩ PollError.fetchError (by decide)⟩

/-- Claim C2 counterexample: an hourly series (09:00) with no sample matching
the current hour (8).  The selector returns `None` (first conjunct) — there
is no `NoMatchError` anywhere in the program — and the caller does not treat
the miss as recoverable: the dict union `minutely_data | None` raises a
`TypeError` that escapes the loop and terminates it (second conjunct). -/
theorem c2_counterexample :
    get_current_hour_data [⟨9, 0⟩] [1013] 8 = none ∧
    poll_loop
      [Except.ok ((⟨[⟨9, 0⟩], [1013]⟩ : RawHourly),
        (⟨[⟨8, 15⟩], [5], [0], [3], [10], [0]⟩ : RawMinutely))] ⟨8, 15⟩
      = ([], some PollError.mergeTypeError) := by
  decide

/-- Claim C2 (amended): when no sample of the hourly series matches the
current hour-of-day, `_get_current_hour_data` returns `None` (no
`NoMatchError` is raised — no such exception exists in the program), and the
caller crashes on it: the dict union raises a `TypeError`, which is not
caught and terminates the polling loop. -/
theorem c2_amended_no_match_crashes_loop
    (rh : RawHourly) (rm : RawMinutely) (now : PyTime)
    (hnomatch : ∀ t ∈ rh.time, t.hour ≠ now.hour)
    (ms : MinutelySample)
    (hsample : get_current_minute_data (validate_minutely rm) now = some ms) :
    get_current_hour_data (validate_hourly rh).time (validate_hourly rh).pressure now.hour
      = none ∧
    poll_iteration (Except.ok (rh, rm)) now = Except.error PollError.mergeTypeError ∧
    poll_loop [Except.ok (rh, rm)] now = ([], some PollError.mergeTypeError) := by
  have hnone : get_current_hour_data (validate_hourly rh).time
      (validate_hourly rh).pressure now.hour = none :=
    get_current_hour_data_none _ _ _ hnomatch
  have hiter : poll_iteration (Except.ok (rh, rm)) now
      = Except.error PollError.mergeTypeError := by
    simp [poll_iteration, hnone, hsample]
  exact ⟨hnone, hiter, by simp [poll_loop, hiter]⟩

/-- Witness for C2 (amended): the hourly series 09:00 at current time 08:15,
with a well-formed minutely series. -/
theorem c2_witness :
    (∀ t ∈ ([⟨9, 0⟩] : List PyTime), t.hour ≠ (⟨8, 15⟩ : PyTime).hour) ∧
    get_current_minute_data
      (validate_minutely ⟨[⟨8, 15⟩], [5], [0], [3], [10], [0]⟩) ⟨8, 15⟩
      = some ⟨⟨8, 15⟩, 5, 0, 3, "Север", some "Ясно"⟩ ∧
    (get_current_hour_data (validate_hourly ⟨[⟨9, 0⟩], [1013]⟩).time
        (validate_hourly ⟨[⟨9, 0⟩], [1013]⟩).pressure (⟨8, 15⟩ : PyTime).hour = none ∧
      poll_iteration
        (Except.ok ((⟨[⟨9, 0⟩], [1013]⟩ : RawHourly),
          (⟨[⟨8, 15⟩], [5], [0], [3], [10], [0]⟩ : RawMinutely))) ⟨8, 15⟩
        = Except.error PollError.mergeTypeError ∧
      poll_loop
        [Except.ok ((⟨[⟨9, 0⟩], [1013]⟩ : RawHourly),
          (⟨[⟨8, 15⟩], [5], [0], [3], [10], [0]⟩ : RawMinutely))] ⟨8, 15⟩
        = ([], some PollError.mergeTypeError)) :=
  ⟨by decide, by decide,
   c2_amended_no_match_crashes_loop ⟨[⟨9, 0⟩], [1013]⟩ ⟨[⟨8, 15⟩], [5], [0], [3], [10], [0]⟩
     ⟨8, 15⟩ (by decide) ⟨⟨8, 15⟩, 5, 0, 3, "Север", some "Ясно"⟩ (by decide)⟩

/-- Every member of a list of naturals is bounded by its `foldr max 0`. -/
theorem le_foldr_max (l : List Nat) (x : Nat) (hx : x ∈ l) : x ≤ l.foldr max 0 := by
  induction l with
  | nil => cases hx
  | cons a t ih =>
      rcases List.mem_cons.mp hx with rfl | h
      · exact le_max_left _ _
      · exact le_trans (ih h) (le_max_right _ _)

/-- The auto-increment identity is strictly larger than every identity
already in the table. -/
theorem id_lt_next_id (store : List WeatherRecordRow) (r : WeatherRecordRow)
    (hr : r ∈ store) : r.id < next_id store :=
  Nat.lt_succ_of_le (le_foldr_max _ _ (List.mem_map_of_mem _ hr))

/-- Reading back one record ordered by descending identity immediately after
an insert returns exactly the inserted row, on any prior table state. -/
theorem get_all_create_desc_one (store : List WeatherRecordRow) (data : CreateData) (now : Nat) :
    get_all (create store data now) (some "id desc") (some 1) = [created_row store data now] := by
  haveI : IsTotal WeatherRecordRow (fun a b => b.id ≤ a.id) :=
    ⟨fun a b => Nat.le_total b.id a.id⟩
  haveI : IsTrans WeatherRecordRow (fun a b => b.id ≤ a.id) :=
    ⟨fun a b c hab hbc => Nat.le_trans hbc hab⟩
  have hsorted : List.Sorted (fun a b : WeatherRecordRow => b.id ≤ a.id)
      (List.insertionSort (fun a b => b.id ≤ a.id) (create store data now)) :=
    List.sorted_insertionSort _ _
  have hperm : (List.insertionSort (fun a b : WeatherRecordRow => b.id ≤ a.id)
      (create store data now)).Perm (create store data now) :=
    List.perm_insertionSort _ _
  have hga : get_all (create store data now) (some "id desc") (some 1)
      = (List.insertionSort (fun a b => b.id ≤ a.id) (create store data now)).take 1 := by
    simp [get_all]
  cases hs : List.insertionSort (fun a b => b.id ≤ a.id) (create store data now) with
  | nil =>
      exfalso
      have hlen := hperm.length_eq
      rw [hs] at hlen
      simp [create] at hlen
  | cons hd tl =>
      rw [hs] at hperm hsorted
      have hmem_hd : hd ∈ create store data now :=
        hperm.subset (List.mem_cons_self _ _)
      have hmem_new : created_row store data now ∈ hd :: tl :=
        hperm.symm.subset (by simp [create])
      have hd_eq : hd = created_row store data now := by
        rcases (by simpa [create] using hmem_hd :
            hd ∈ store ∨ hd = created_row store data now) with h1 | h2
        · exfalso
          have hlt : hd.id < next_id store := id_lt_next_id store hd h1
          have hni : (created_row store data now).id = next_id store := rfl
          rcases List.mem_cons.mp hmem_new with h3 | h4
          · rw [← h3] at hlt
            omega
          · have hle : (created_row store data now).id ≤ hd.id :=
              (List.sorted_cons.mp hsorted).1 _ h4
            omega
        · exact h2
      rw [hga, hs, hd_eq]
      rfl

/-- Claim C8: merging a selected sub-hourly sample with a selected hourly
pressure, validating, persisting via the repository's `create` and reading
back the single most recent record (`order_by="id desc"`, `limit=1`) yields a
record whose payload fields equal the merged input and whose `created_at` is
set and non-null (assigned by the store at write time, not by the caller). -/
theorem c8_round_trip (ms : MinutelySample) (p : ℚ) (d : CreateData)
    (store : List WeatherRecordRow) (now : Nat)
    (h : validate_create (merge_records ms p) = Except.ok d) :
    ∃ r, get_all (create store d now) (some "id desc") (some 1) = [r] ∧
      r.temperature = ms.temperature ∧ r.wind_speed = ms.wind_speed ∧
      r.wind_direction = ms.wind_direction ∧ r.precipitation = ms.precipitation ∧
      r.pressure = p ∧ some r.weather = ms.weather ∧
      r.created_at = some now ∧ r.created_at ≠ none := by
  cases hw : ms.weather with
  | none => simp [validate_create, merge_records, hw] at h
  | some w =>
      have hd : d = ⟨ms.temperature, ms.wind_speed, ms.wind_direction,
          ms.precipitation, p, w⟩ := by
        have h2 := h
        simp only [validate_create, merge_records, hw, Except.ok.injEq] at h2
        exact h2.symm
      subst hd
      exact ⟨created_row store _ now, get_all_create_desc_one store _ now,
        rfl, rfl, rfl, rfl, rfl, rfl, rfl, by simp [created_row]⟩

/-- Witness for C8: a concrete sample merged with pressure 759, persisted on
an empty table at database time 42, reads back as the single most recent
record. -/
theorem c8_witness :
    validate_create (merge_records ⟨⟨8, 15⟩, 5, 0, 3, "Север", some "Ясно"⟩ 759)
      = Except.ok ⟨5, 3, "Север", 0, 759, "Ясно"⟩ ∧
    (∃ r, get_all (create [] ⟨5, 3, "Север", 0, 759, "Ясно"⟩ 42) (some "id desc") (some 1)
        = [r] ∧
      r.temperature = 5 ∧ r.wind_speed = 3 ∧ r.wind_direction = "Север" ∧
      r.precipitation = 0 ∧ r.pressure = 759 ∧ some r.weather = some "Ясно" ∧
      r.created_at = some 42 ∧ r.created_at ≠ none) :=
  ⟨by decide,
   c8_round_trip ⟨⟨8, 15⟩, 5, 0, 3, "Север", some "Ясно"⟩ 759
     ⟨5, 3, "Север", 0, 759, "Ясно"⟩ [] 42 (by decide)⟩

/-- Sorting by descending identity reverses a table whose identities strictly
increase in insertion order. -/
theorem sort_desc_eq_reverse (store : List WeatherRecordRow)
    (hinc : List.Pairwise (fun a b => a.id < b.id) store) :
    List.insertionSort (fun a b => b.id ≤ a.id) store = store.reverse := by
  haveI : IsTotal WeatherRecordRow (fun a b => b.id ≤ a.id) :=
    ⟨fun a b => Nat.le_total b.id a.id⟩
  haveI : IsTrans WeatherRecordRow (fun a b => b.id ≤ a.id) :=
    ⟨fun a b c hab hbc => Nat.le_trans hbc hab⟩
  haveI hA : IsAntisymm WeatherRecordRow (fun a b => b.id < a.id) :=
    ⟨fun a b h1 h2 => absurd (Nat.lt_trans h1 h2) (Nat.lt_irrefl _)⟩
  refine @List.eq_of_perm_of_sorted _ (fun a b => b.id < a.id) hA _ _
    ((List.perm_insertionSort _ _).trans (List.reverse_perm store).symm) ?_ ?_
  · have hsorted : List.Sorted (fun a b : WeatherRecordRow => b.id ≤ a.id)
        (List.insertionSort (fun a b => b.id ≤ a.id) store) :=
      List.sorted_insertionSort _ _
    have hne : List.Pairwise (fun a b : WeatherRecordRow => a.id ≠ b.id)
        (List.insertionSort (fun a b => b.id ≤ a.id) store) := by
      have hstore : List.Pairwise (fun a b : WeatherRecordRow => a.id ≠ b.id) store :=
        hinc.imp fun h => Nat.ne_of_lt h
      exact ((List.perm_insertionSort (fun a b : WeatherRecordRow => b.id ≤ a.id)
        store).pairwise_iff fun h => Ne.symm h).mpr hstore
    exact (hsorted.and hne).imp fun h => Nat.lt_of_le_of_ne h.1 fun e => h.2 e.symm
  · exact List.pairwise_reverse.mpr hinc

/-- A table whose identities strictly increase in insertion order is already
in ascending-identity order. -/
theorem sort_asc_eq_self (store : List WeatherRecordRow)
    (hinc : List.Pairwise (fun a b => a.id < b.id) store) :
    List.insertionSort (fun a b => a.id ≤ b.id) store = store :=
  List.Sorted.insertionSort_eq (hinc.imp fun h => Nat.le_of_lt h)

/-- Claim C9: on a table whose identities strictly increase in creation
order, `get_all` with `order_by="id desc"` and limit n returns the n
most-recently-created rows in strictly descending identity order (at most n
of them), and `get_all` with no order and no limit returns the table in
ascending identity order. -/
theorem c9_get_all_ordering (store : List WeatherRecordRow) (n : Nat)
    (hinc : List.Pairwise (fun a b => a.id < b.id) store) :
    get_all store (some "id desc") (some n) = store.reverse.take n ∧
    List.Pairwise (fun a b => b.id < a.id) (get_all store (some "id desc") (some n)) ∧
    (get_all store (some "id desc") (some n)).length ≤ n ∧
    get_all store none none = store := by
  have h1 : get_all store (some "id desc") (some n) = store.reverse.take n := by
    simp [get_all, sort_desc_eq_reverse store hinc]
  refine ⟨h1, ?_, ?_, ?_⟩
  · rw [h1]
    exact List.Pairwise.sublist (List.take_sublist _ _) (List.pairwise_reverse.mpr hinc)
  · rw [h1, List.length_take]
    exact min_le_left _ _
  · have h2 : get_all store none none
        = List.insertionSort (fun a b => a.id ≤ b.id) store := by
      simp [get_all]
    rw [h2, sort_asc_eq_self store hinc]

/-- Witness for C9: a two-row table with identities 1, 2; the descending read
with limit 1 returns the most recent row only, and the default read returns
the table unchanged. -/
theorem c9_witness :
    List.Pairwise (fun a b : WeatherRecordRow => a.id < b.id)
      [⟨1, 5, 3, "Север", 0, 759, "Ясно", some 100⟩,
       ⟨2, 6, 2, "Юг", 1, 760, "Пасмурно", some 200⟩] ∧
    (get_all
        [⟨1, 5, 3, "Север", 0, 759, "Ясно", some 100⟩,
         ⟨2, 6, 2, "Юг", 1, 760, "Пасмурно", some 200⟩] (some "id desc") (some 1)
      = ([⟨1, 5, 3, "Север", 0, 759, "Ясно", some 100⟩,
          ⟨2, 6, 2, "Юг", 1, 760, "Пасмурно", some 200⟩] :
          List WeatherRecordRow).reverse.take 1 ∧
     List.Pairwise (fun a b : WeatherRecordRow => b.id < a.id)
       (get_all
         [⟨1, 5, 3, "Север", 0, 759, "Ясно", some 100⟩,
          ⟨2, 6, 2, "Юг", 1, 760, "Пасмурно", some 200⟩] (some "id desc") (some 1)) ∧
     (get_all
         [⟨1, 5, 3, "Север", 0, 759, "Ясно", some 100⟩,
          ⟨2, 6, 2, "Юг", 1, 760, "Пасмурно", some 200⟩] (some "id desc") (some 1)).length ≤ 1 ∧
     get_all
         [⟨1, 5, 3, "Север", 0, 759, "Ясно", some 100⟩,
          ⟨2, 6, 2, "Юг", 1, 760, "Пасмурно", some 200⟩] none none
       = [⟨1, 5, 3, "Север", 0, 759, "Ясно", some 100⟩,
          ⟨2, 6, 2, "Юг", 1, 760, "Пасмурно", some 200⟩]) :=
  ⟨by decide,
   c9_get_all_ordering
     [⟨1, 5, 3, "Север", 0, 759, "Ясно", some 100⟩,
      ⟨2, 6, 2, "Юг", 1, 760, "Пасмурно", some 200⟩] 1 (by decide)⟩

end WeatherApp
